import Mathlib

/-!
Verification of the ChArUco calibration pipeline (`kalibracja.py`) and the
batch image pre-screening tool (`kalibracja1fotka.py`).

The embedding is shallow: OpenCV detection is an oracle (a frame is
characterized by its pixel size together with the corner positions the
detector would report on it), pixel coordinates are exact rationals, Python
ints are `Int`, and the filesystem visible to `main` is an explicit record
of functions.  Every definition mirrors the corresponding Python source,
with line references given in the doc comments.
-/

namespace CharucoCalib

/-- A frame as seen by the pipeline after detection: its image size
`(w, h)` (from `bgr.shape[:2]`, `kalibracja.py` line 214) together with
the ChArUco corner positions the detector reports on it
(`charucoCorners`, one `(x, y)` point per detected corner). -/
abbrev Frame : Type := (ℕ × ℕ) × List (ℚ × ℚ)

/-- Accumulator state of `main` in `kalibracja.py` (lines 203-206):
`all_corners`, the common image size `imsize`, and the `accepted` counter. -/
structure AccState where
  imsize : Option (ℕ × ℕ)
  accepted : ℕ
  all_corners : List (List (ℚ × ℚ))
  deriving DecidableEq

/-- `process_frame` of `kalibracja.py` (lines 211-247): record the image
size on the first processed frame, then accept the frame iff the number
of detected ChArUco corners reaches `min_corners`; the returned `ℕ` is
the `status` value (1 = ACCEPT, 0 = REJECT).  There is no comparison of
the current frame's size against the recorded `imsize`. -/
def process_frame (min_corners : ℤ) (size : ℕ × ℕ) (corners : List (ℚ × ℚ))
    (st : AccState) : ℕ × AccState :=
  let imsize := match st.imsize with
    | none => some size
    | some s => some s
  let n : ℕ := corners.length
  if (n : ℤ) ≥ min_corners then
    (1, ⟨imsize, st.accepted + 1, st.all_corners ++ [corners]⟩)
  else
    (0, ⟨imsize, st.accepted, st.all_corners⟩)

/-- Bounding-box area fraction computed inside `eval_image` of
`kalibracja1fotka.py` (lines 113-120): with zero corners it stays `0.0`;
otherwise it is `max(0, x1-x0) * max(0, y1-y0) / (W*H)` where
`x0/x1` (`y0/y1`) are the min/max of the corners' x (y) coordinates. -/
def bb_area_frac (W H : ℕ) : List (ℚ × ℚ) → ℚ
  | [] => 0
  | c :: rest =>
    let xs := (c :: rest).map Prod.fst
    let ys := (c :: rest).map Prod.snd
    let x0 := xs.foldl min c.1
    let x1 := xs.foldl max c.1
    let y0 := ys.foldl min c.2
    let y1 := ys.foldl max c.2
    let bw := max 0 (x1 - x0)
    let bh := max 0 (y1 - y0)
    (bw * bh) / ((W : ℚ) * (H : ℚ))

/-- `eval_image` of `kalibracja1fotka.py` (lines 89-143), restricted to its
decision data `(ok, n, area_frac)`.  The input is `none` for an unreadable
image (`cv2.imread` returned `None`, line 92-94: result `(False, 0, 0.0)`),
or `some` frame with its size and detected corners.  The decision (line
122) is `ok = (n >= min_corners) and (area_frac >= min_area_frac)`. -/
def eval_image (min_corners : ℤ) (min_area_frac : ℚ) (img : Option Frame) :
    Bool × ℕ × ℚ :=
  match img with
  | none => (false, 0, 0)
  | some ((W, H), cs) =>
    let n : ℕ := cs.length
    let af := bb_area_frac W H cs
    (decide ((n : ℤ) ≥ min_corners) && decide (af ≥ min_area_frac), n, af)

/-- The per-file ACCEPT/REJECT classification produced by the loop of
`main` in `kalibracja1fotka.py` (lines 175-181, the `ok` entry of each
`rows` record), one Boolean per input file in order. -/
def batch_classify (min_corners : ℤ) (min_area_frac : ℚ)
    (imgs : List (Option Frame)) : List Bool :=
  imgs.map (fun img => (eval_image min_corners min_area_frac img).1)

/-- The `total` and `accepted` counters of `main` in `kalibracja1fotka.py`
(lines 172-180): `total` is incremented for every file, `accepted` when
`eval_image` returned `ok = True`. -/
def batch_counts (min_corners : ℤ) (min_area_frac : ℚ)
    (imgs : List (Option Frame)) : ℕ × ℕ :=
  imgs.foldl
    (fun acc img =>
      (acc.1 + 1,
       if (eval_image min_corners min_area_frac img).1 then acc.2 + 1 else acc.2))
    (0, 0)

/-- The summary `{total, accepted, rejected}` printed by
`kalibracja1fotka.py` line 184: `rejected` is printed as `total-accepted`. -/
def batch_report (min_corners : ℤ) (min_area_frac : ℚ)
    (imgs : List (Option Frame)) : ℕ × ℕ × ℕ :=
  let tc := batch_counts min_corners min_area_frac imgs
  (tc.1, tc.2, tc.1 - tc.2)

/-- Whitespace stripped by Python's `str.strip()` / `int(str)` (the common
ASCII whitespace characters). -/
def isPyWS (c : Char) : Bool :=
  c == ' ' || c == '\t' || c == '\n' || c == '\r'

/-- Python `s.strip()` on a character list. -/
def stripWS (s : List Char) : List Char :=
  ((s.dropWhile isPyWS).reverse.dropWhile isPyWS).reverse

/-- Decimal digit value of a character, if it is one. -/
def digitVal (c : Char) : Option ℕ :=
  if '0' ≤ c ∧ c ≤ '9' then some (c.toNat - 48) else none

/-- Accumulating decimal read of a digit run; fails on any non-digit. -/
def digitsToNatAux : List Char → ℕ → Option ℕ
  | [], acc => some acc
  | c :: rest, acc =>
    match digitVal c with
    | none => none
    | some d => digitsToNatAux rest (acc * 10 + d)

/-- A non-empty all-digit run read as a natural number. -/
def digitsToNat : List Char → Option ℕ
  | [] => none
  | c :: rest => digitsToNatAux (c :: rest) 0

/-- Python `int(s)` for decimal strings: surrounding whitespace is
stripped, an optional single `+`/`-` sign precedes a non-empty digit run.
(Underscore digit grouping and non-ASCII digits, which CPython also
accepts, are not modelled; `is_camera_index` below uses this same parse,
so the pair is faithful to the source on the modelled strings.) -/
def pythonParseInt (s : List Char) : Option ℤ :=
  match stripWS s with
  | '+' :: rest => (digitsToNat rest).map (fun n => (n : ℤ))
  | '-' :: rest => (digitsToNat rest).map (fun n => -(n : ℤ))
  | t => (digitsToNat t).map (fun n => (n : ℤ))

/-- `is_camera_index` of `kalibracja.py` (lines 50-55): `int(s)` succeeds. -/
def is_camera_index (s : List Char) : Bool :=
  (pythonParseInt s).isSome

/-- The capture target of `kalibracja.py` line 268:
`cv2.VideoCapture(0 if is_camera_index(args.source) else args.source)` —
a camera-index source opens device `0`, any other source opens the path. -/
def captureDevice (source : List Char) : Sum ℤ (List Char) :=
  if is_camera_index source then Sum.inl 0 else Sum.inr source

/-- Glob-character test of `gather_images_from_source`
(`kalibracja.py` line 131): `any(ch in source for ch in ['*', '?', '['])`. -/
def hasGlobChar (s : List Char) : Bool :=
  s.any (fun c => c == '*' || c == '?' || c == '[')

/-- Python `' .' in s`: the two-character pattern space-dot occurs. -/
def containsSpaceDot : List Char → Bool
  | ' ' :: '.' :: _ => true
  | _ :: rest => containsSpaceDot rest
  | [] => false

/-- Python `s.replace(' .', '.')`: replace every non-overlapping
occurrence of space-dot, scanning left to right (`kalibracja.py` line 187). -/
def fixPath : List Char → List Char
  | ' ' :: '.' :: rest => '.' :: fixPath rest
  | c :: rest => c :: fixPath rest
  | [] => []

/-- The stray-space path correction of `kalibracja.py` lines 183-190:
if the literal source does not exist but contains `' .'` and the variant
with the space removed exists, substitute it (the Boolean records whether
the `[INFO] Skorygowano` substitution message was printed). -/
def sourceCorrection (pathExists : List Char → Bool) (s : List Char) :
    List Char × Bool :=
  if pathExists s then (s, false)
  else if containsSpaceDot s then
    let s2 := fixPath s
    if pathExists s2 then (s2, true) else (s, false)
  else (s, false)

/-- The final path component (Python `Path(s).name`, modulo pathlib's
trailing-slash normalisation, which no modelled source string uses). -/
def pyName (s : List Char) : List Char :=
  (s.reverse.takeWhile (fun c => c != '/')).reverse

/-- Python `Path(s).suffix`: the extension of the final component,
empty when the name has no dot, ends in a dot, or starts with its only
dot (pathlib's `0 < i < len(name) - 1` rule on the last-dot index). -/
def pySuffix (s : List Char) : List Char :=
  let name := pyName s
  let after := name.reverse.takeWhile (fun c => c != '.')
  if after.length = name.length then []
  else if after.length = 0 then []
  else if name.length = after.length + 1 then []
  else '.' :: after.reverse

/-- ASCII lower-casing, as `str.lower()` acts on the modelled suffixes. -/
def asciiLower (c : Char) : Char :=
  if 'A' ≤ c ∧ c ≤ 'Z' then Char.ofNat (c.toNat + 32) else c

/-- The video-suffix set of `kalibracja.py` line 266. -/
def videoExts : List (List Char) :=
  [".mp4".toList, ".mov".toList, ".mkv".toList, ".avi".toList]

/-- `Path(source).suffix.lower() in {'.mp4', '.mov', '.mkv', '.avi'}`
(`kalibracja.py` line 266). -/
def hasVideoSuffix (s : List Char) : Bool :=
  videoExts.contains ((pySuffix s).map asciiLower)

/-- The filesystem and capture devices visible to `main`: existence /
kind tests on paths, sorted glob matches (`sorted(glob.glob(source))`),
the sorted image-extension listing of a directory (`kalibracja.py` lines
135-136), and the frame streams `cv2.VideoCapture` would yield (`none`
when the capture cannot be opened, i.e. `not cap.isOpened()`). -/
structure FS where
  pathExists : List Char → Bool
  isDir : List Char → Bool
  isFile : List Char → Bool
  globSorted : List Char → List (List Char)
  dirImagesSorted : List Char → List (List Char)
  cameraCapture : Option (List Frame)
  videoCapture : List Char → Option (List Frame)

/-- `gather_images_from_source` of `kalibracja.py` (lines 128-141):
glob sources yield their matches filtered to files, an existing directory
yields its sorted image listing, an existing file yields a one-element
list, and anything else yields `None`.  Note a zero-match glob yields
`some []`, not `none`. -/
def gather_images_from_source (fs : FS) (source : List Char) :
    Option (List (List Char)) :=
  if hasGlobChar source then some ((fs.globSorted source).filter fs.isFile)
  else if fs.pathExists source && fs.isDir source then
    some (fs.dirImagesSorted source)
  else if fs.pathExists source && fs.isFile source then some [source]
  else none

/-- The still-image loop of `main` (`kalibracja.py` lines 249-262): stop
once the enumeration index reaches `max_frames`, skip unreadable files
(`imread` gave `None`) with a warning, process the rest. -/
def image_loop (imread : List Char → Option Frame) (min_corners : ℤ)
    (max_frames : ℤ) : List (List Char) → ℕ → AccState → AccState
  | [], _, st => st
  | fp :: rest, i, st =>
    if (i : ℤ) ≥ max_frames then st
    else
      match imread fp with
      | none => image_loop imread min_corners max_frames rest (i + 1) st
      | some f =>
        image_loop imread min_corners max_frames rest (i + 1)
          (process_frame min_corners f.1 f.2 st).2

/-- The camera/video loop of `main` (`kalibracja.py` lines 272-290):
read frames in order until the stream ends, analyse every
`frame_step`-th frame, stop once `used` reaches `max_frames`.
(`frame_step = 0` would raise `ZeroDivisionError` in Python and is not
modelled; every claim uses the default step 1.) -/
def video_loop (min_corners : ℤ) (frame_step : ℕ) (max_frames : ℤ) :
    List Frame → ℕ → ℕ → AccState → AccState
  | [], _, _, st => st
  | f :: rest, frameIdx, used, st =>
    if frameIdx % frame_step ≠ 0 then
      video_loop min_corners frame_step max_frames rest (frameIdx + 1) used st
    else
      let st2 := (process_frame min_corners f.1 f.2 st).2
      let used2 := used + 1
      if (used2 : ℤ) ≥ max_frames then st2
      else video_loop min_corners frame_step max_frames rest (frameIdx + 1) used2 st2

/-- Outcome of one run of `kalibracja.py`'s `main`: a fatal source error
(`sys.exit(1)`, lines 271 and 295), too few accepted frames
(`sys.exit(2)`, line 300), or a completed calibration carrying the
dataset handed to `calibrateCameraCharucoExtended` (lines 305-315). -/
inductive RunOutcome where
  | sourceError : RunOutcome
  | insufficientFrames : ℕ → RunOutcome
  | calibrated : List (List (ℚ × ℚ)) → Option (ℕ × ℕ) → ℕ → RunOutcome
  deriving DecidableEq

/-- The finalize step of `main` (`kalibracja.py` lines 297-331): exit 2
when `accepted < max(min_frames, 4)`, otherwise run the calibration on
the accumulated corners and image size. -/
def finalize_run (min_frames : ℤ) (st : AccState) : RunOutcome :=
  if (st.accepted : ℤ) < max min_frames 4 then .insufficientFrames st.accepted
  else .calibrated st.all_corners st.imsize st.accepted

/-- CLI arguments of `kalibracja.py` relevant to the pipeline logic. -/
structure Args where
  source : List Char
  min_corners : ℤ
  min_frames : ℤ
  frame_step : ℕ
  max_frames : ℤ

/-- Source normalisation of `main` (`kalibracja.py` lines 176-190):
an empty/whitespace source defaults to `"0"`, then the stray-space path
correction is applied (`os.path.expanduser` is elided; paths are
modelled post-expansion). -/
def normalized_source (fs : FS) (s : List Char) : List Char :=
  (sourceCorrection fs.pathExists (if stripWS s = [] then ['0'] else s)).1

/-- `main` of `kalibracja.py` (lines 158-349) as a function of the
filesystem, the image-read/detect oracle and the arguments: normalise the
source, gather still images, and dispatch to the image mode, the
camera/video mode, or a source error; finish with the
finalize/calibrate step. -/
def main_run (fs : FS) (imread : List Char → Option Frame) (a : Args) :
    RunOutcome :=
  match gather_images_from_source fs (normalized_source fs a.source) with
  | some files =>
    finalize_run a.min_frames
      (image_loop imread a.min_corners a.max_frames files 0 ⟨none, 0, []⟩)
  | none =>
    if is_camera_index (normalized_source fs a.source) ||
        hasVideoSuffix (normalized_source fs a.source) ||
        fs.pathExists (normalized_source fs a.source) then
      match (if is_camera_index (normalized_source fs a.source) then fs.cameraCapture
             else fs.videoCapture (normalized_source fs a.source)) with
      | none => .sourceError
      | some frames =>
        finalize_run a.min_frames
          (video_loop a.min_corners a.frame_step a.max_frames frames 0 0
            ⟨none, 0, []⟩)
    else .sourceError

/-- Process exit code of each outcome (`sys.exit(1)` on source errors,
`sys.exit(2)` on insufficient frames, 0 on completion). -/
def exit_code : RunOutcome → ℕ
  | .sourceError => 1
  | .insufficientFrames _ => 2
  | .calibrated _ _ _ => 0

/-- Whether the run ended in the insufficient-frames exit. -/
def is_insufficient : RunOutcome → Bool
  | .insufficientFrames _ => true
  | _ => false

/-- Whether `cv2.aruco.calibrateCameraCharucoExtended` was invoked: the
call at `kalibracja.py` line 305 is reached only past the exit(2) at
line 300 and the exit(1) paths. -/
def solver_invoked : RunOutcome → Bool
  | .calibrated _ _ _ => true
  | _ => false

/-- Whether calibration artifacts (the `.npz` result at line 321 and the
undistortion preview at line 348) were written: both writes happen after
the calibration call, so only on the `calibrated` outcome. -/
def artifacts_written : RunOutcome → Bool
  | .calibrated _ _ _ => true
  | _ => false

/-- Spec-side axis-aligned bounding box of a corner set, written from the
spec's words (§4.3): the least and greatest x and y coordinates, here via
`foldr`, independent of the source's `foldl`-with-clamp computation. -/
def bbox : List (ℚ × ℚ) → Option (ℚ × ℚ × ℚ × ℚ)
  | [] => none
  | c :: rest =>
    some ((((c :: rest).map Prod.fst).foldr min c.1),
          (((c :: rest).map Prod.fst).foldr max c.1),
          (((c :: rest).map Prod.snd).foldr min c.2),
          (((c :: rest).map Prod.snd).foldr max c.2))

/-- Spec-side area fraction (§4.3): the area of the axis-aligned bounding
box of all detected corner positions divided by `frameWidth*frameHeight`,
and 0 for zero corners. -/
def spec_area_fraction (W H : ℕ) (cs : List (ℚ × ℚ)) : ℚ :=
  match bbox cs with
  | none => 0
  | some (x0, x1, y0, y1) => ((x1 - x0) * (y1 - y0)) / ((W : ℚ) * (H : ℚ))

theorem foldl_op_push (f : ℚ → ℚ → ℚ) (hc : ∀ a b, f a b = f b a)
    (ha : ∀ a b c, f (f a b) c = f a (f b c)) (l : List ℚ) :
    ∀ x a, l.foldl f (f x a) = f a (l.foldl f x) := by
  induction l with
  | nil => intro x a; simp [List.foldl, hc]
  | cons c l ih =>
    intro x a
    simp only [List.foldl]
    have h : f (f x a) c = f (f x c) a := by
      rw [ha, hc a c, ← ha]
    rw [h, ih]

theorem foldl_eq_foldr_op (f : ℚ → ℚ → ℚ) (hc : ∀ a b, f a b = f b a)
    (ha : ∀ a b c, f (f a b) c = f a (f b c)) (l : List ℚ) (x : ℚ) :
    l.foldl f x = l.foldr f x := by
  induction l with
  | nil => rfl
  | cons c l ih =>
    simp only [List.foldl, List.foldr]
    rw [foldl_op_push f hc ha l x c, ih]

theorem foldl_min_le_foldl_max (l : List ℚ) :
    ∀ x y : ℚ, x ≤ y → l.foldl min x ≤ l.foldl max y := by
  induction l with
  | nil => intro x y h; simpa using h
  | cons c l ih =>
    intro x y h
    simp only [List.foldl]
    exact ih _ _ (le_trans (min_le_left x c) (le_trans h (le_max_left y c)))

/-- C1: the claim says a second `append` with a differing `imageSize`
always fails with `ImageSizeMismatch` and that `imageSize` is fixed to
the first *accepted* frame's size.  Counterexample on the code: a first
frame of size 100×100 with zero corners is rejected, then frames of
sizes 200×200 and 300×300 with 12 corners each are both accepted with no
error, and the dataset's image size stays 100×100 (the first *processed*
frame's size, from the rejected frame). -/
theorem C1_counterexample :
    let cs12 : List (ℚ × ℚ) := List.replicate 12 (5, 5)
    let r1 := process_frame 12 (100, 100) [] ⟨none, 0, []⟩
    let r2 := process_frame 12 (200, 200) cs12 r1.2
    let r3 := process_frame 12 (300, 300) cs12 r2.2
    r1.1 = 0 ∧ r2.1 = 1 ∧ r3.1 = 1 ∧ r3.2.accepted = 2 ∧
      r3.2.imsize = some (100, 100) := by
  decide

/-- C1 (amended): `process_frame` never checks frame sizes, so an append
with any size never fails: the recorded image size is fixed by the first
processed frame (accepted or not) and never updated afterwards, and a
frame is accepted and accumulated exactly when its corner count reaches
`min_corners`, regardless of its size. -/
theorem C1_append_never_checks_size (mc : ℤ) (size : ℕ × ℕ)
    (cs : List (ℚ × ℚ)) (st : AccState) :
    ((process_frame mc size cs st).2.imsize =
      match st.imsize with
      | none => some size
      | some s => some s) ∧
    ((cs.length : ℤ) ≥ mc →
      (process_frame mc size cs st).1 = 1 ∧
      (process_frame mc size cs st).2.accepted = st.accepted + 1 ∧
      (process_frame mc size cs st).2.all_corners = st.all_corners ++ [cs]) ∧
    ((cs.length : ℤ) < mc →
      (process_frame mc size cs st).1 = 0 ∧
      (process_frame mc size cs st).2.accepted = st.accepted) := by
  refine ⟨?_, ?_, ?_⟩
  · by_cases hc : (cs.length : ℤ) ≥ mc <;>
      cases h : st.imsize <;>
        simp [process_frame, h, hc]
  · intro h
    unfold process_frame
    rw [if_pos h]
    exact ⟨rfl, rfl, rfl⟩
  · intro h
    unfold process_frame
    rw [if_neg (by omega)]
    exact ⟨rfl, rfl⟩

/-- C1 witness: a state whose recorded size is 100×100 accepts a
200×200 frame with 12 corners, keeping the old size. -/
theorem C1_append_never_checks_size_witness :
    (process_frame 12 (200, 200) (List.replicate 12 ((5 : ℚ), 5))
      ⟨some (100, 100), 1, []⟩).1 = 1 ∧
    (process_frame 12 (200, 200) (List.replicate 12 ((5 : ℚ), 5))
      ⟨some (100, 100), 1, []⟩).2.imsize = some (100, 100) := by
  refine ⟨((C1_append_never_checks_size 12 (200, 200)
    (List.replicate 12 ((5 : ℚ), 5)) ⟨some (100, 100), 1, []⟩).2.1
      (by decide)).1, ?_⟩
  exact (C1_append_never_checks_size 12 (200, 200)
    (List.replicate 12 ((5 : ℚ), 5)) ⟨some (100, 100), 1, []⟩).1

/-- C2: the claim says finalize succeeds whenever the accepted count is
at least the configured minimum, for every minimum ≥ 1.  Counterexample
on the code: an end-to-end run over a directory of three readable images
with 15 corners each, `min_frames = 1`, accepts 3 ≥ 1 frames, yet the
code exits with the insufficient-frames error because the effective
minimum is `max(min_frames, 4) = 4`. -/
theorem C2_counterexample :
    let fs : FS :=
      ⟨fun s => s == "imgs".toList, fun s => s == "imgs".toList,
       fun _ => false, fun _ => [],
       fun s => if s == "imgs".toList then
           ["a.jpg".toList, "b.jpg".toList, "c.jpg".toList] else [],
       none, fun _ => none⟩
    let imread : List Char → Option Frame :=
      fun _ => some ((640, 480), List.replicate 15 ((3 : ℚ), 4))
    let a : Args := ⟨"imgs".toList, 12, 1, 1, 500⟩
    (3 : ℤ) ≥ 1 ∧ main_run fs imread a = RunOutcome.insufficientFrames 3 := by
  exact ⟨by decide, by decide⟩

/-- C2 (amended): finalize fails with the insufficient-frames error
exactly when the accepted count is below `max(min_frames, 4)`; in
particular, for every configured minimum ≥ 4 it fails exactly when the
accepted count is below that minimum (minimums 1–3 are silently raised
to 4). -/
theorem C2_finalize_effective_minimum (mf : ℤ) (st : AccState) :
    (is_insufficient (finalize_run mf st) = true ↔
      (st.accepted : ℤ) < max mf 4) ∧
    (4 ≤ mf →
      (is_insufficient (finalize_run mf st) = true ↔
        (st.accepted : ℤ) < mf)) := by
  have h : is_insufficient (finalize_run mf st) = true ↔
      (st.accepted : ℤ) < max mf 4 := by
    unfold finalize_run
    by_cases hlt : (st.accepted : ℤ) < max mf 4
    · simp [hlt, is_insufficient]
    · simp [hlt, is_insufficient]
  refine ⟨h, fun h4 => ?_⟩
  rw [h, max_eq_left (by omega)]

/-- C2 witness: with minimum 12 and 7 accepted frames, finalize fails. -/
theorem C2_finalize_effective_minimum_witness :
    is_insufficient (finalize_run 12 ⟨some (640, 480), 7, []⟩) = true :=
  ((C2_finalize_effective_minimum 12 ⟨some (640, 480), 7, []⟩).2
    (by norm_num)).mpr (by norm_num)

/-- C3: the claim says zero detected corners always yields REJECT.
Counterexample on the code: with thresholds `min_corners = 0` and
`min_area_frac = 0`, a frame with zero corners is ACCEPTed by both the
batch gate (`eval_image`) and the pipeline gate (`process_frame`). -/
theorem C3_counterexample :
    (eval_image 0 0 (some ((100, 100), []))).1 = true ∧
    (process_frame 0 (100, 100) [] ⟨none, 0, []⟩).1 = 1 := by
  decide

/-- C3 (amended): for every threshold `k`, a corner count below `k`
yields REJECT and a corner count at least `k` with the area criterion
satisfied yields ACCEPT, in both gates; zero detected corners yields
REJECT whenever `k ≥ 1` (not for every `k`: see the counterexample). -/
theorem C3_gate_thresholds (k : ℤ) (maf : ℚ) (W H : ℕ) (cs : List (ℚ × ℚ))
    (size : ℕ × ℕ) (st : AccState) :
    ((cs.length : ℤ) < k → (eval_image k maf (some ((W, H), cs))).1 = false) ∧
    ((cs.length : ℤ) ≥ k → bb_area_frac W H cs ≥ maf →
      (eval_image k maf (some ((W, H), cs))).1 = true) ∧
    (1 ≤ k → cs = [] → (eval_image k maf (some ((W, H), cs))).1 = false) ∧
    ((cs.length : ℤ) < k → (process_frame k size cs st).1 = 0) ∧
    ((cs.length : ℤ) ≥ k → (process_frame k size cs st).1 = 1) ∧
    (1 ≤ k → cs = [] → (process_frame k size cs st).1 = 0) := by
  refine ⟨?_, ?_, ?_, ?_, ?_, ?_⟩
  · intro h
    simp only [eval_image, Bool.and_eq_false_iff, decide_eq_false_iff_not, not_le]
    exact Or.inl h
  · intro h1 h2
    simp only [eval_image, Bool.and_eq_true, decide_eq_true_iff]
    exact ⟨h1, h2⟩
  · intro hk hcs
    subst hcs
    simp only [eval_image, Bool.and_eq_false_iff, decide_eq_false_iff_not, not_le,
      List.length_nil]
    exact Or.inl (by omega)
  · intro h
    unfold process_frame
    rw [if_neg (by omega)]
  · intro h
    unfold process_frame
    rw [if_pos h]
  · intro hk hcs
    subst hcs
    unfold process_frame
    rw [if_neg (by simp; omega)]

/-- C3 witness: 12 corners spanning the whole 100×100 frame pass both
gates at `min_corners = 12`, `min_area_frac = 8/100`. -/
theorem C3_gate_thresholds_witness :
    (eval_image 12 (8/100 : ℚ)
      (some ((100, 100),
        ((0 : ℚ), (0 : ℚ)) :: List.replicate 11 ((100 : ℚ), 100)))).1 = true ∧
    (process_frame 12 (100, 100)
      (((0 : ℚ), (0 : ℚ)) :: List.replicate 11 ((100 : ℚ), 100))
      ⟨none, 0, []⟩).1 = 1 := by
  refine ⟨(C3_gate_thresholds 12 (8/100) 100 100
      (((0 : ℚ), (0 : ℚ)) :: List.replicate 11 ((100 : ℚ), 100))
      (100, 100) ⟨none, 0, []⟩).2.1 (by decide)
      (by norm_num [bb_area_frac, List.replicate, min_def, max_def]), ?_⟩
  exact (C3_gate_thresholds 12 (8/100) 100 100
      (((0 : ℚ), (0 : ℚ)) :: List.replicate 11 ((100 : ℚ), 100))
      (100, 100) ⟨none, 0, []⟩).2.2.2.2.1 (by decide)

/-- C4: the claim says a glob matching zero files is reported as a
source-unavailable failure.  Counterexample on the code: with a glob
source matching no files, `gather_images_from_source` returns an empty
list (not `None`), the run proceeds through the empty image loop, and
fails only at finalize time with the insufficient-frames error and exit
code 2 — not as a source error. -/
theorem C4_counterexample :
    let fs : FS := ⟨fun _ => false, fun _ => false, fun _ => false,
                    fun _ => [], fun _ => [], none, fun _ => none⟩
    let a : Args := ⟨"*.jpg".toList, 12, 12, 1, 500⟩
    main_run fs (fun _ => none) a = RunOutcome.insufficientFrames 0 ∧
      exit_code (main_run fs (fun _ => none) a) = 2 ∧
      main_run fs (fun _ => none) a ≠ RunOutcome.sourceError := by
  exact ⟨by decide, by decide, by decide⟩

/-- C4 (amended): an unopenable camera index and a nonexistent file path
do fail fatally at open (exit 1); but a glob matching zero files, or an
existing directory containing no image files, yields an empty image list
and the run proceeds, failing only at finalize with the
insufficient-frames error (exit 2) rather than a source error. -/
theorem C4_source_failure_modes (fs : FS) (imread : List Char → Option Frame)
    (a : Args) (h0 : ¬ stripWS a.source = [])
    (h1 : sourceCorrection fs.pathExists a.source = (a.source, false)) :
    (gather_images_from_source fs a.source = none →
      is_camera_index a.source = true → fs.cameraCapture = none →
      main_run fs imread a = RunOutcome.sourceError) ∧
    (gather_images_from_source fs a.source = none →
      is_camera_index a.source = false → fs.pathExists a.source = false →
      fs.videoCapture a.source = none →
      main_run fs imread a = RunOutcome.sourceError) ∧
    (hasGlobChar a.source = true →
      (fs.globSorted a.source).filter fs.isFile = [] →
      main_run fs imread a = RunOutcome.insufficientFrames 0) ∧
    (hasGlobChar a.source = false → fs.pathExists a.source = true →
      fs.isDir a.source = true → fs.dirImagesSorted a.source = [] →
      main_run fs imread a = RunOutcome.insufficientFrames 0) := by
  have hs : normalized_source fs a.source = a.source := by
    unfold normalized_source
    rw [if_neg h0, h1]
  have hzero : (0 : ℤ) < max a.min_frames 4 :=
    lt_of_lt_of_le (by norm_num) (le_max_right _ _)
  refine ⟨?_, ?_, ?_, ?_⟩
  · intro hg hcam hcap
    simp [main_run, hs, hg, hcam, hcap]
  · intro hg hcam hex hvid
    cases hv : hasVideoSuffix a.source <;>
      simp [main_run, hs, hg, hcam, hex, hvid, hv]
  · intro hglob hempty
    have hg2 : gather_images_from_source fs a.source = some [] := by
      simp [gather_images_from_source, hglob, hempty]
    simp [main_run, hs, hg2, image_loop, finalize_run, hzero]
  · intro hglob hex hdir hlist
    have hg2 : gather_images_from_source fs a.source = some [] := by
      simp [gather_images_from_source, hglob, hex, hdir, hlist]
    simp [main_run, hs, hg2, image_loop, finalize_run, hzero]

/-- C4 witness: camera index `"5"` with a camera that cannot be opened
ends in the fatal source error. -/
theorem C4_source_failure_modes_witness :
    main_run ⟨fun _ => false, fun _ => false, fun _ => false,
              fun _ => [], fun _ => [], none, fun _ => none⟩
      (fun _ => none) ⟨"5".toList, 12, 12, 1, 500⟩ = RunOutcome.sourceError :=
  (C4_source_failure_modes
    ⟨fun _ => false, fun _ => false, fun _ => false,
     fun _ => [], fun _ => [], none, fun _ => none⟩
    (fun _ => none) ⟨"5".toList, 12, 12, 1, 500⟩
    (by decide) (by decide)).1 (by decide) (by decide) rfl

/-- C5: end-to-end scenario B on a 10-frame stream whose frames 1-3 have
0 corners and frames 4-10 have 15 corners each, with `min_corners = 12`
and `min_frames = 8`: exactly 7 frames are accepted, the run exits with
the insufficient-frames error, the calibration solver is never invoked,
and no calibration artifacts (result file, undistortion preview) are
written. -/
theorem C5_scenarioB :
    let goodF : Frame := ((640, 480), List.replicate 15 ((7 : ℚ), 9))
    let badF : Frame := ((640, 480), [])
    let fs : FS := ⟨fun _ => false, fun _ => false, fun _ => false,
                    fun _ => [], fun _ => [],
                    some (List.replicate 3 badF ++ List.replicate 7 goodF),
                    fun _ => none⟩
    let a : Args := ⟨"0".toList, 12, 8, 1, 500⟩
    main_run fs (fun _ => none) a = RunOutcome.insufficientFrames 7 ∧
      solver_invoked (main_run fs (fun _ => none) a) = false ∧
      artifacts_written (main_run fs (fun _ => none) a) = false := by
  exact ⟨by decide, by decide, by decide⟩

/-- C6: the gate's bounding-box area fraction equals the spec-side
axis-aligned bounding-box area divided by `W*H`; it is 0 for zero
corners, 1 when the bounding box is exactly the frame rectangle, and 0
for a degenerate single-point bounding box. -/
theorem C6_area_fraction (W H : ℕ) (hW : 0 < W) (hH : 0 < H)
    (cs : List (ℚ × ℚ)) (p : ℚ × ℚ) :
    bb_area_frac W H cs = spec_area_fraction W H cs ∧
    bb_area_frac W H ([] : List (ℚ × ℚ)) = 0 ∧
    (bbox cs = some (0, (W : ℚ), 0, (H : ℚ)) → bb_area_frac W H cs = 1) ∧
    bb_area_frac W H [p] = 0 := by
  have hmain : ∀ l : List (ℚ × ℚ),
      bb_area_frac W H l = spec_area_fraction W H l := by
    intro l
    cases l with
    | nil => rfl
    | cons c rest =>
      simp only [bb_area_frac, spec_area_fraction, bbox]
      have hx := foldl_min_le_foldl_max ((c :: rest).map Prod.fst) c.1 c.1 le_rfl
      have hy := foldl_min_le_foldl_max ((c :: rest).map Prod.snd) c.2 c.2 le_rfl
      rw [max_eq_right (sub_nonneg.mpr hx), max_eq_right (sub_nonneg.mpr hy),
        foldl_eq_foldr_op min min_comm min_assoc ((c :: rest).map Prod.fst) c.1,
        foldl_eq_foldr_op max max_comm max_assoc ((c :: rest).map Prod.fst) c.1,
        foldl_eq_foldr_op min min_comm min_assoc ((c :: rest).map Prod.snd) c.2,
        foldl_eq_foldr_op max max_comm max_assoc ((c :: rest).map Prod.snd) c.2]
  refine ⟨hmain cs, rfl, ?_, ?_⟩
  · intro hb
    rw [hmain cs]
    simp only [spec_area_fraction, hb]
    rw [sub_zero, sub_zero]
    exact div_self (mul_ne_zero
      (Nat.cast_ne_zero.mpr hW.ne') (Nat.cast_ne_zero.mpr hH.ne'))
  · simp [bb_area_frac, sub_self]

/-- C6 witness: two corners spanning the whole 4×2 frame give fraction 1. -/
theorem C6_area_fraction_witness :
    bb_area_frac 4 2 [((0 : ℚ), (0 : ℚ)), ((4 : ℚ), (2 : ℚ))] = 1 :=
  (C6_area_fraction 4 2 (by norm_num) (by norm_num)
    [((0 : ℚ), (0 : ℚ)), ((4 : ℚ), (2 : ℚ))] ((1 : ℚ), (1 : ℚ))).2.2.1
    (by norm_num [bbox, min_def, max_def])

/-- C7: end-to-end scenario C of the batch evaluator: three 100×100
images whose detections are 20 corners covering 50% of the frame, 20
corners covering 2% of the frame, and 5 corners, at `min_corners = 12`
and `min_area_frac = 0.08`, give the report `{total 3, accepted 1,
rejected 2}`, with only the first image accepted. -/
theorem C7_scenarioC :
    let img1 : Option Frame := some ((100, 100),
      ((0 : ℚ), (0 : ℚ)) :: ((100 : ℚ), (50 : ℚ)) ::
        List.replicate 18 ((50 : ℚ), 25))
    let img2 : Option Frame := some ((100, 100),
      ((0 : ℚ), (0 : ℚ)) :: ((20 : ℚ), (10 : ℚ)) ::
        List.replicate 18 ((10 : ℚ), 5))
    let img3 : Option Frame := some ((100, 100), List.replicate 5 ((30 : ℚ), 40))
    batch_report 12 (8/100) [img1, img2, img3] = (3, 1, 2) ∧
      batch_classify 12 (8/100) [img1, img2, img3] = [true, false, false] ∧
      (eval_image 12 (8/100) img1).2.1 = 20 ∧
      (eval_image 12 (8/100) img1).2.2 = 1/2 ∧
      (eval_image 12 (8/100) img2).2.1 = 20 ∧
      (eval_image 12 (8/100) img2).2.2 = 2/100 ∧
      (eval_image 12 (8/100) img3).2.1 = 5 := by
  refine ⟨?_, ?_, ?_, ?_, ?_, ?_, ?_⟩ <;>
    norm_num [batch_report, batch_counts, batch_classify, eval_image,
      bb_area_frac, List.replicate, min_def, max_def]

/-- C8: on open, a source path that does not exist but contains a stray
`' .'` whose space-removed variant exists is substituted by the corrected
path (and the substitution is reported); an existing literal path is
left unchanged. -/
theorem C8_stray_space_correction (ex : List Char → Bool) (s : List Char) :
    (ex s = true → sourceCorrection ex s = (s, false)) ∧
    (ex s = false → containsSpaceDot s = true → ex (fixPath s) = true →
      sourceCorrection ex s = (fixPath s, true)) := by
  constructor
  · intro h
    simp [sourceCorrection, h]
  · intro h1 h2 h3
    simp [sourceCorrection, h1, h2, h3]

/-- C8 witness: `"kalibracja .MOV"` is corrected to `"kalibracja.MOV"`
when only the latter exists. -/
theorem C8_stray_space_correction_witness :
    sourceCorrection (fun t => t == "kalibracja.MOV".toList)
      "kalibracja .MOV".toList = ("kalibracja.MOV".toList, true) := by
  have h := (C8_stray_space_correction
    (fun t => t == "kalibracja.MOV".toList) "kalibracja .MOV".toList).2
    (by decide) (by decide) (by decide)
  have h2 : fixPath "kalibracja .MOV".toList = "kalibracja.MOV".toList := by
    decide
  rw [h2] at h
  exact h

/-- C9: the batch evaluator is deterministic: two runs on equal inputs
(same per-image detections, i.e. the same directory contents under a
deterministic detector) with equal thresholds produce identical per-file
classifications and identical summary counts. -/
theorem C9_batch_deterministic (mc1 mc2 : ℤ) (maf1 maf2 : ℚ)
    (imgs1 imgs2 : List (Option Frame))
    (hmc : mc1 = mc2) (hmaf : maf1 = maf2) (himgs : imgs1 = imgs2) :
    batch_classify mc1 maf1 imgs1 = batch_classify mc2 maf2 imgs2 ∧
    batch_report mc1 maf1 imgs1 = batch_report mc2 maf2 imgs2 := by
  subst hmc
  subst hmaf
  subst himgs
  exact ⟨rfl, rfl⟩

/-- C9 witness: a concrete one-image run is equal to its re-run. -/
theorem C9_batch_deterministic_witness :
    batch_classify 12 (8/100) [some ((100, 100), [((1 : ℚ), (2 : ℚ))])] =
      batch_classify 12 (8/100) [some ((100, 100), [((1 : ℚ), (2 : ℚ))])] :=
  (C9_batch_deterministic 12 12 (8/100) (8/100)
    [some ((100, 100), [((1 : ℚ), (2 : ℚ))])]
    [some ((100, 100), [((1 : ℚ), (2 : ℚ))])] rfl rfl rfl).1

/-- C10: for every source string that Python's `int()` parses (a camera
index), the pipeline opens video-capture device 0, whatever the parsed
value was — so the request is honoured exactly when that value is 0. -/
theorem C10_camera_index_always_zero (s : List Char) (n : ℤ)
    (h : pythonParseInt s = some n) :
    captureDevice s = Sum.inl 0 ∧ (captureDevice s = Sum.inl n ↔ n = 0) := by
  have hc : is_camera_index s = true := by
    simp [is_camera_index, h]
  constructor
  · simp [captureDevice, hc]
  · simp [captureDevice, hc, eq_comm]

/-- C10 witness: `--source 2` parses as the integer 2 yet opens device 0. -/
theorem C10_camera_index_always_zero_witness :
    pythonParseInt "2".toList = some 2 ∧
      captureDevice "2".toList = Sum.inl 0 ∧ ¬ ((2 : ℤ) = 0) :=
  ⟨by decide,
   (C10_camera_index_always_zero "2".toList 2 (by decide)).1,
   by decide⟩

end CharucoCalib
